import Mathlib

/-!
Verification development for the aegra UK-housing routing agent and its
OpenAI-compatible HTTP adapter.

The definitions below are a shallow embedding of the Python source:
  * `graphs/uk_housing_agent/graph.py` — the intent classifier parsing,
    the dispatch table (`route_to_agent`) and the routing state machine;
  * `src/agent_server/api/openai_compat.py` — message conversion, thread
    selection, the non-streaming handler, the streaming generator and the
    404 resolution of graph ids.
Model calls, tool execution and the langgraph runtime are external
collaborators; they enter the embedding as oracle parameters (the model
reply string, the stream event list, the graph-run function).
-/

namespace Aegra

/-! ## Classifier parsing (graph.py, detect_intent)

The model reply is untrusted free text; `detect_intent` normalises it with
`response.content.strip().lower()` and keeps it only if it is one of the
four category names, otherwise substituting "general". -/

/-- The valid issue types, from `valid_types = {"heating", "damp", "repairs", "general"}`. -/
def validTypes : List String := ["heating", "damp", "repairs", "general"]

/-- Python `str.strip()`: drop leading and trailing whitespace characters. -/
def pyStrip (s : String) : String :=
  String.mk (((s.data.dropWhile Char.isWhitespace).reverse.dropWhile Char.isWhitespace).reverse)

/-- Python `str.lower()` (ASCII case mapping; the classifier prompt demands
lowercase ASCII category names, so non-ASCII case folding is immaterial). -/
def pyLower (s : String) : String :=
  String.mk (s.data.map Char.toLower)

/-- Parsing of the classifier model reply in `detect_intent`:
`detected = response.content.strip().lower()`;
`issue_type = detected if detected in valid_types else "general"`. -/
def parseIntent (reply : String) : String :=
  let detected := pyLower (pyStrip reply)
  if detected ∈ validTypes then detected else "general"

/-! ## Dispatch (graph.py, route_to_agent)

`route_to_agent` reads `state.issue_type or "general"` (Python truthiness:
a missing or empty value falls back to "general") and looks the result up
in the literal routing dict with default "general_agent". -/

/-- Python `x or d` on an optional string: `None` and the empty string are
falsy and yield the default. -/
def orDefault (s : Option String) (d : String) : String :=
  match s with
  | none => d
  | some t => if t = "" then d else t

/-- The literal dict lookup `routing.get(issue_type, "general_agent")` with
`routing = {"heating": "heating_agent", "damp": "damp_agent",
"repairs": "repairs_agent", "general": "general_agent"}`. -/
def routingGet (key : String) : String :=
  if key = "heating" then "heating_agent"
  else if key = "damp" then "damp_agent"
  else if key = "repairs" then "repairs_agent"
  else if key = "general" then "general_agent"
  else "general_agent"

/-- `route_to_agent`: dispatch from the state's `issue_type` field to a
specialist node name. -/
def routeToAgent (issue_type : Option String) : String :=
  routingGet (orDefault issue_type "general")

/-- The four specialist node names registered with `builder.add_node`. -/
def specialistNames : List String :=
  ["heating_agent", "damp_agent", "repairs_agent", "general_agent"]

/-! ## Routing state machine (graph.py, builder edges)

Nodes and edges as built by `StateGraph`: `__start__ → detect_intent`,
a conditional edge from `detect_intent` given by `route_to_agent`, and an
unconditional edge from each specialist to `END`. -/

/-- The nodes of the compiled graph (`END` is rendered `endNode`). -/
inductive Node where
  | start
  | detect_intent
  | heating_agent
  | damp_agent
  | repairs_agent
  | general_agent
  | endNode
deriving DecidableEq, Repr

/-- Resolution of a conditional-edge target name to a node, defined on the
four names `route_to_agent` can return. -/
def nodeOfName (s : String) : Option Node :=
  if s = "heating_agent" then some Node.heating_agent
  else if s = "damp_agent" then some Node.damp_agent
  else if s = "repairs_agent" then some Node.repairs_agent
  else if s = "general_agent" then some Node.general_agent
  else none

/-- One transition of the routing graph. The only data the edges consult is
the `issue_type` produced by `detect_intent`; `none` means the node has no
successor (the run stops). -/
def step (n : Node) (issue_type : Option String) : Option Node :=
  match n with
  | Node.start => some Node.detect_intent
  | Node.detect_intent => nodeOfName (routeToAgent issue_type)
  | Node.heating_agent => some Node.endNode
  | Node.damp_agent => some Node.endNode
  | Node.repairs_agent => some Node.endNode
  | Node.general_agent => some Node.endNode
  | Node.endNode => none

/-- The sequence of nodes visited from `n`, bounded by `fuel`. -/
def runFrom (fuel : Nat) (n : Node) (issue_type : Option String) : List Node :=
  match fuel with
  | 0 => [n]
  | fuel + 1 =>
    n :: (match step n issue_type with
          | none => []
          | some m => runFrom fuel m issue_type)

/-- The full execution trace of one invocation, from `__start__`. -/
def execTrace (issue_type : Option String) : List Node :=
  runFrom 8 Node.start issue_type

/-- The specialist nodes. -/
def specialistNodes : List Node :=
  [Node.heating_agent, Node.damp_agent, Node.repairs_agent, Node.general_agent]

/-! ## HTTP adapter data model (openai_compat.py) -/

/-- OpenAI-compatible chat message (`ChatMessage`): role and content. -/
structure ChatMessage where
  role : String
  content : String
deriving DecidableEq, Repr

/-- The fields of `ChatCompletionRequest` read by the handlers; the sampling
parameters (temperature, top_p, max_tokens, stream_options) are accepted but
never read by the embedded code paths and are omitted. -/
structure ChatCompletionRequest where
  model : String
  messages : List ChatMessage
  stream : Bool := false
  thread_id : Option String := none
  user : Option String := none
deriving DecidableEq, Repr

/-- One OpenAI-compatible completion choice. -/
structure ChatCompletionChoice where
  index : Nat
  message : ChatMessage
  finish_reason : String
deriving DecidableEq, Repr

/-- OpenAI-compatible usage statistics. -/
structure ChatCompletionUsage where
  prompt_tokens : Nat
  completion_tokens : Nat
  total_tokens : Nat
deriving DecidableEq, Repr

/-- OpenAI-compatible chat completion response (the `id` and `created`
fields are fresh per call and are omitted from the embedding). -/
structure ChatCompletionResponse where
  object : String
  model : String
  choices : List ChatCompletionChoice
  usage : ChatCompletionUsage
deriving DecidableEq, Repr

/-- Internal langgraph message forms produced by
`_convert_messages_to_langgraph_format` and by the agents. -/
inductive LGMessage where
  | system (content : String)
  | human (content : String)
  | ai (content : String)
deriving DecidableEq, Repr

/-- The `.content` attribute of a langgraph message. -/
def LGMessage.contentOf : LGMessage → String
  | LGMessage.system c => c
  | LGMessage.human c => c
  | LGMessage.ai c => c

/-- The run configuration `{"configurable": {"thread_id": ..., "user_id": ...}}`. -/
structure RunConfig where
  thread_id : String
  user_id : String
deriving DecidableEq, Repr

/-- The final graph state as read by the adapter: its message list. -/
structure GraphResult where
  messages : List LGMessage
deriving DecidableEq, Repr

/-! ## Adapter helpers -/

/-- `_convert_messages_to_langgraph_format`: system/user/assistant map 1:1
to SystemMessage/HumanMessage/AIMessage; any other role is skipped. -/
def convertMessagesToLanggraphFormat : List ChatMessage → List LGMessage
  | [] => []
  | m :: rest =>
    if m.role = "system" then
      LGMessage.system m.content :: convertMessagesToLanggraphFormat rest
    else if m.role = "user" then
      LGMessage.human m.content :: convertMessagesToLanggraphFormat rest
    else if m.role = "assistant" then
      LGMessage.ai m.content :: convertMessagesToLanggraphFormat rest
    else
      convertMessagesToLanggraphFormat rest

/-- An HTTP error as raised by `HTTPException(status_code=..., detail=...)`. -/
structure HTTPError where
  status_code : Nat
  detail : String
deriving DecidableEq, Repr

/-- `_get_graph_or_404`: resolve the id against the registry of known graph
ids, raising a 404 whose detail names the id when absent. The registry
lookup itself (`langgraph_service.get_graph`) is the external collaborator;
here it is the membership test against the known ids. -/
def getGraphOr404 (knownGraphs : List String) (graphId : String) : Except HTTPError Unit :=
  if graphId ∈ knownGraphs then Except.ok ()
  else Except.error
    { status_code := 404
      detail := "Graph/Model \x27" ++ graphId ++ "\x27 not found" }

/-- Thread selection `request.thread_id or f"thread-{uuid4()}"`: Python `or`
treats `None` and the empty string as falsy, so both yield the freshly
generated identifier (passed in as `fresh`). -/
def selectThreadId (tid : Option String) (fresh : String) : String :=
  match tid with
  | none => fresh
  | some t => if t = "" then fresh else t

/-- The run configuration built by the handlers from the selected thread id
and the authenticated user identity. -/
def buildRunConfig (threadId userId : String) : RunConfig :=
  { thread_id := threadId, user_id := userId }

/-- The Python `str(...)` rendering of one pydantic `ChatMessage`
(quote escaping inside the fields is not modelled). -/
def reprChatMessage (m : ChatMessage) : String :=
  "ChatMessage(role=\x27" ++ m.role ++ "\x27, content=\x27" ++ m.content ++ "\x27)"

/-- The Python `str(request.messages)` rendering of the message list, whose
character length the handler uses as the prompt-token proxy. -/
def renderMessages (msgs : List ChatMessage) : String :=
  "[" ++ String.intercalate ", " (msgs.map reprChatMessage) ++ "]"

/-! ## Non-streaming handler (`_chat_completion_non_streaming`) -/

/-- Extraction of the response content from the final graph state: the last
message's `.content`, or the placeholder when the message list is empty.
(Every embedded message form has a `.content` attribute, so the
`hasattr` fallback branch is unreachable.) -/
def extractResponseContent (result : GraphResult) : String :=
  match result.messages.getLast? with
  | none => "No response generated"
  | some lastMsg => lastMsg.contentOf

/-- `_chat_completion_non_streaming` on the happy path (the graph run, an
oracle parameter, raises no error): convert the messages, build the run
configuration, invoke the graph, and shape the single-choice response with
the length-proxy usage statistics. -/
def chatCompletionNonStreaming (req : ChatCompletionRequest) (threadId userIdentity : String)
    (graphRun : List LGMessage → RunConfig → GraphResult) : ChatCompletionResponse :=
  let convertedMessages := convertMessagesToLanggraphFormat req.messages
  let config := buildRunConfig threadId userIdentity
  let result := graphRun convertedMessages config
  let responseContent := extractResponseContent result
  { object := "chat.completion"
    model := req.model
    choices := [{ index := 0
                  message := { role := "assistant", content := responseContent }
                  finish_reason := "stop" }]
    usage := { prompt_tokens := (renderMessages req.messages).length
               completion_tokens := responseContent.length
               total_tokens := (renderMessages req.messages).length + responseContent.length } }

/-! ## Streaming handler (`_stream_chat_completion`) -/

/-- One event from `graph.astream_events(..., version="v2")`: its `event`
type and, for model-stream events, the `.content` of the chunk payload
(`none` when the payload has no content attribute). -/
structure StreamEvent where
  event : String
  chunkContent : Option String
deriving DecidableEq, Repr

/-- One item written to the SSE response: either a serialized
`ChatCompletionStreamResponse` chunk (`data: {json}`) or the literal
`data: [DONE]` sentinel line. -/
inductive SSEItem where
  | chunk (object : String) (deltaRole : String) (deltaContent : String)
      (finishReason : Option String)
  | done
deriving DecidableEq, Repr

/-- The loop body of `_stream_chat_completion`: for each
`on_chat_model_stream` event whose chunk has truthy (non-empty) content,
emit one delta chunk wrapping that content; all other events emit
nothing. -/
def streamBody (model : String) : List StreamEvent → List SSEItem
  | [] => []
  | ev :: rest =>
    if ev.event = "on_chat_model_stream" then
      match ev.chunkContent with
      | some c =>
        if c = "" then streamBody model rest
        else SSEItem.chunk "chat.completion.chunk" "assistant" c none
               :: streamBody model rest
      | none => streamBody model rest
    else streamBody model rest

/-- The full emission of `_stream_chat_completion` on the happy path: the
per-event delta chunks, then the final chunk with `finish_reason="stop"`,
then the `[DONE]` sentinel. -/
def streamChatCompletion (model : String) (events : List StreamEvent) : List SSEItem :=
  streamBody model events
    ++ [SSEItem.chunk "chat.completion.chunk" "assistant" "" (some "stop"), SSEItem.done]

/-! ## Endpoint dispatch (`create_chat_completion`, `get_model`) -/

/-- The value produced by `create_chat_completion`: a streaming response or
a regular completion response. -/
inductive HandlerOutput where
  | streaming (items : List SSEItem)
  | completion (resp : ChatCompletionResponse)
deriving DecidableEq, Repr

/-- `create_chat_completion`: validate the model against the known graph
ids (404 when absent, before any graph work), select the thread id, then
branch on `request.stream`. The graph behaviors (`graphRun` for blocking
invocation, `events` for the event stream) are oracle parameters. -/
def createChatCompletion (knownGraphs : List String) (req : ChatCompletionRequest)
    (userIdentity fresh : String)
    (graphRun : List LGMessage → RunConfig → GraphResult)
    (events : List StreamEvent) : Except HTTPError HandlerOutput :=
  match getGraphOr404 knownGraphs req.model with
  | Except.error e => Except.error e
  | Except.ok _ =>
    let threadId := selectThreadId req.thread_id fresh
    if req.stream then
      Except.ok (HandlerOutput.streaming (streamChatCompletion req.model events))
    else
      Except.ok (HandlerOutput.completion
        (chatCompletionNonStreaming req threadId userIdentity graphRun))

/-- `get_model` (`GET /v1/models/{model_id}`): resolve or 404; on success
return a model object carrying the id. -/
def getModel (knownGraphs : List String) (modelId : String) : Except HTTPError String :=
  match getGraphOr404 knownGraphs modelId with
  | Except.error e => Except.error e
  | Except.ok _ => Except.ok modelId

/-- The model-token contents that pass the emission test of the streaming
loop, in arrival order. -/
def deltaContents (events : List StreamEvent) : List String :=
  events.filterMap (fun ev =>
    if ev.event = "on_chat_model_stream" then
      match ev.chunkContent with
      | some c => if c = "" then none else some c
      | none => none
    else none)

/-- The `finish_reason` carried by an SSE item (`none` for the sentinel). -/
def SSEItem.finishReasonOf : SSEItem → Option String
  | SSEItem.chunk _ _ _ fr => fr
  | SSEItem.done => none

/-- Whether an SSE item is a chunk carrying `finish_reason = "stop"`. -/
def isStopItem (it : SSEItem) : Bool :=
  it.finishReasonOf == some "stop"

/-! ## Helper lemmas -/

theorem routeToAgent_mem (issue : Option String) :
    routeToAgent issue ∈ specialistNames := by
  cases issue with
  | none => simp [routeToAgent, orDefault, routingGet, specialistNames]
  | some t =>
    simp only [routeToAgent, orDefault, routingGet, specialistNames]
    split_ifs <;> simp

theorem execTrace_shape (issue : Option String) :
    ∃ a ∈ specialistNodes,
      execTrace issue = [Node.start, Node.detect_intent, a, Node.endNode] := by
  have h := routeToAgent_mem issue
  simp only [specialistNames, List.mem_cons, List.not_mem_nil, or_false] at h
  have key : ∀ a : Node, nodeOfName (routeToAgent issue) = some a →
      step a issue = some Node.endNode →
      execTrace issue = [Node.start, Node.detect_intent, a, Node.endNode] := by
    intro a h1 h2
    have s0 : step Node.start issue = some Node.detect_intent := rfl
    have s1 : step Node.detect_intent issue = some a := by
      rw [show step Node.detect_intent issue = nodeOfName (routeToAgent issue) from rfl, h1]
    have s3 : step Node.endNode issue = none := rfl
    simp [execTrace, runFrom, s0, s1, h2, s3]
  rcases h with h | h | h | h
  · exact ⟨Node.heating_agent, by decide, key _ (by rw [h]; rfl) rfl⟩
  · exact ⟨Node.damp_agent, by decide, key _ (by rw [h]; rfl) rfl⟩
  · exact ⟨Node.repairs_agent, by decide, key _ (by rw [h]; rfl) rfl⟩
  · exact ⟨Node.general_agent, by decide, key _ (by rw [h]; rfl) rfl⟩

/-! ## Claim theorems -/

/-- C1: the classifier normalises the model reply (strip, then lower-case)
and returns it as the issue type when the result is one of the four
category names, otherwise returning "general"; hence for every reply the
output is one of the four enumeration values, never empty, and parsing is
total (never raises). -/
theorem classifier_always_valid_category (reply : String) :
    parseIntent reply ∈ validTypes ∧
    (pyLower (pyStrip reply) ∈ validTypes → parseIntent reply = pyLower (pyStrip reply)) ∧
    (pyLower (pyStrip reply) ∉ validTypes → parseIntent reply = "general") ∧
    parseIntent reply ≠ "" := by
  by_cases h : pyLower (pyStrip reply) ∈ validTypes
  · refine ⟨?_, fun _ => ?_, fun hc => absurd h hc, ?_⟩
    · simp [parseIntent, h]
    · simp [parseIntent, h]
    · have he : parseIntent reply = pyLower (pyStrip reply) := by simp [parseIntent, h]
      rw [he]
      simp only [validTypes, List.mem_cons, List.not_mem_nil, or_false] at h
      rcases h with h | h | h | h <;> rw [h] <;> decide
  · refine ⟨?_, fun hc => absurd hc h, fun _ => by simp [parseIntent, h], ?_⟩
    · have he : parseIntent reply = "general" := by simp [parseIntent, h]
      rw [he]; decide
    · have he : parseIntent reply = "general" := by simp [parseIntent, h]
      rw [he]; decide

/-- Witness for C1 at concrete replies: a recognised reply (after
normalisation) is returned verbatim, and an out-of-set reply falls back. -/
theorem classifier_always_valid_category_witness :
    parseIntent "  HEATING " = pyLower (pyStrip "  HEATING ") ∧
    parseIntent "boiler stuff" = "general" :=
  ⟨(classifier_always_valid_category "  HEATING ").2.1 (by decide),
   (classifier_always_valid_category "boiler stuff").2.2.1 (by decide)⟩

/-- C2: every invocation of the routing graph visits `detect_intent`
exactly once, then exactly one specialist node, then the terminal node;
every specialist transitions unconditionally to the terminal node and no
path returns to `detect_intent`. -/
theorem routing_graph_single_pass (issue : Option String) :
    (∃ a ∈ specialistNodes,
        execTrace issue = [Node.start, Node.detect_intent, a, Node.endNode]) ∧
    (execTrace issue).count Node.detect_intent = 1 ∧
    (execTrace issue).countP (fun n => decide (n ∈ specialistNodes)) = 1 ∧
    (execTrace issue).getLast? = some Node.endNode ∧
    specialistNodes.map (fun a => step a issue) =
      [some Node.endNode, some Node.endNode, some Node.endNode, some Node.endNode] := by
  obtain ⟨a, ha, htrace⟩ := execTrace_shape issue
  have hmap : specialistNodes.map (fun a => step a issue) =
      [some Node.endNode, some Node.endNode, some Node.endNode, some Node.endNode] := by
    simp [specialistNodes, step]
  refine ⟨⟨a, ha, htrace⟩, ?_, ?_, ?_, hmap⟩
  all_goals (
    rw [htrace]
    simp only [specialistNodes, List.mem_cons, List.not_mem_nil, or_false] at ha
    rcases ha with h | h | h | h <;> subst h <;> decide)

/-- C3: dispatch is a pure total mapping: each category maps to its
specialist, a missing issue type and any out-of-map value map to the
general agent, and the result is always one of the four specialists. -/
theorem dispatch_pure_total_mapping (issue : Option String) :
    routeToAgent issue ∈ specialistNames ∧
    routeToAgent (some "heating") = "heating_agent" ∧
    routeToAgent (some "damp") = "damp_agent" ∧
    routeToAgent (some "repairs") = "repairs_agent" ∧
    routeToAgent (some "general") = "general_agent" ∧
    routeToAgent none = "general_agent" ∧
    ∀ s : String, s ∉ validTypes → routeToAgent (some s) = "general_agent" := by
  refine ⟨routeToAgent_mem issue, by decide, by decide, by decide, by decide,
    by decide, ?_⟩
  intro s hs
  simp only [validTypes, List.mem_cons, List.not_mem_nil, or_false, not_or] at hs
  obtain ⟨h1, h2, h3, h4⟩ := hs
  by_cases h0 : s = ""
  · simp [routeToAgent, orDefault, routingGet, h0]
  · simp [routeToAgent, orDefault, routingGet, h0, h1, h2, h3, h4]

/-- Witness for C3: an out-of-map category dispatches to the general
agent. -/
theorem dispatch_pure_total_mapping_witness :
    routeToAgent (some "boiler") = "general_agent" :=
  (dispatch_pure_total_mapping (some "boiler")).2.2.2.2.2.2 "boiler" (by decide)

theorem streamBody_eq (model : String) (events : List StreamEvent) :
    streamBody model events =
      (deltaContents events).map
        (fun c => SSEItem.chunk "chat.completion.chunk" "assistant" c none) := by
  induction events with
  | nil => rfl
  | cons ev rest ih =>
    by_cases he : ev.event = "on_chat_model_stream"
    · cases hc : ev.chunkContent with
      | none => simpa [streamBody, deltaContents, he, hc] using ih
      | some c =>
        by_cases h0 : c = ""
        · simpa [streamBody, deltaContents, he, hc, h0] using ih
        · simpa [streamBody, deltaContents, he, hc, h0] using ih
    · simpa [streamBody, deltaContents, he] using ih

/-- C4: on the happy path, the streaming emission is the model-token delta
chunks in arrival order — each with object "chat.completion.chunk" and a
null finish_reason — followed by exactly one chunk with finish_reason
"stop" and then the `[DONE]` sentinel, which is the last item. -/
theorem streaming_chunk_sequence (model : String) (events : List StreamEvent) :
    streamChatCompletion model events =
      (deltaContents events).map
        (fun c => SSEItem.chunk "chat.completion.chunk" "assistant" c none)
      ++ [SSEItem.chunk "chat.completion.chunk" "assistant" "" (some "stop"),
          SSEItem.done] ∧
    (streamChatCompletion model events).countP isStopItem = 1 ∧
    (streamChatCompletion model events).getLast? = some SSEItem.done := by
  have h := streamBody_eq model events
  refine ⟨by rw [streamChatCompletion, h], ?_, ?_⟩
  · rw [streamChatCompletion, h, List.countP_append]
    have hz : ((deltaContents events).map
        (fun c => SSEItem.chunk "chat.completion.chunk" "assistant" c none)).countP
          isStopItem = 0 := by
      rw [List.countP_eq_zero]
      intro it hit
      simp only [List.mem_map] at hit
      obtain ⟨c, _, rfl⟩ := hit
      simp [isStopItem, SSEItem.finishReasonOf]
    rw [hz]
    decide
  · rw [streamChatCompletion,
      show [SSEItem.chunk "chat.completion.chunk" "assistant" "" (some "stop"),
            SSEItem.done]
        = [SSEItem.chunk "chat.completion.chunk" "assistant" "" (some "stop")]
          ++ [SSEItem.done] from rfl,
      ← List.append_assoc]
    exact List.getLast?_concat _

/-- C5: a non-streaming request against a known model yields a regular
completion whose object is "chat.completion" with exactly one choice, that
choice having finish_reason "stop" and an assistant message. -/
theorem non_streaming_single_stop_choice (knownGraphs : List String)
    (req : ChatCompletionRequest) (userIdentity fresh : String)
    (graphRun : List LGMessage → RunConfig → GraphResult) (events : List StreamEvent)
    (hmodel : req.model ∈ knownGraphs) (hstream : req.stream = false) :
    ∃ r : ChatCompletionResponse,
      createChatCompletion knownGraphs req userIdentity fresh graphRun events =
        Except.ok (HandlerOutput.completion r) ∧
      r.object = "chat.completion" ∧
      r.choices.length = 1 ∧
      ∀ c ∈ r.choices, c.finish_reason = "stop" ∧ c.message.role = "assistant" := by
  refine ⟨chatCompletionNonStreaming req (selectThreadId req.thread_id fresh)
      userIdentity graphRun, ?_, rfl, rfl, ?_⟩
  · simp [createChatCompletion, getGraphOr404, hmodel, hstream]
  · intro c hc
    simp only [chatCompletionNonStreaming, List.mem_singleton] at hc
    subst hc
    exact ⟨rfl, rfl⟩

/-- Witness for C5 at a concrete request, registry and graph run. -/
theorem non_streaming_single_stop_choice_witness :
    ∃ r : ChatCompletionResponse,
      createChatCompletion ["agent"]
          { model := "agent", messages := [{ role := "user", content := "hi" }] }
          "dev-user" "thread-fresh"
          (fun _ _ => { messages := [LGMessage.ai "hello"] }) [] =
        Except.ok (HandlerOutput.completion r) ∧
      r.object = "chat.completion" ∧
      r.choices.length = 1 ∧
      ∀ c ∈ r.choices, c.finish_reason = "stop" ∧ c.message.role = "assistant" :=
  non_streaming_single_stop_choice ["agent"]
    { model := "agent", messages := [{ role := "user", content := "hi" }] }
    "dev-user" "thread-fresh" (fun _ _ => { messages := [LGMessage.ai "hello"] }) []
    (by decide) rfl

/-- C6 counterexample: a request carrying the caller-supplied thread id ""
does not get that exact identifier into the run configuration — Python
`or` treats the empty string as falsy and substitutes the freshly
generated identifier. -/
theorem thread_id_empty_not_reused :
    (buildRunConfig (selectThreadId (some "") "thread-3f2a9c") "dev-user").thread_id
      ≠ "" := by decide

/-- C6 (amended): a non-empty caller-supplied thread id is placed verbatim
in the run configuration; an absent or empty thread id yields the freshly
generated one; and the non-streaming handler consults the graph run only
at that built run configuration. -/
theorem thread_id_selection (req : ChatCompletionRequest) (userIdentity fresh : String)
    (graphRun altRun : List LGMessage → RunConfig → GraphResult) :
    (∀ t, req.thread_id = some t → t ≠ "" →
        (buildRunConfig (selectThreadId req.thread_id fresh) userIdentity).thread_id = t) ∧
    (req.thread_id = none →
        (buildRunConfig (selectThreadId req.thread_id fresh) userIdentity).thread_id = fresh) ∧
    (req.thread_id = some "" →
        (buildRunConfig (selectThreadId req.thread_id fresh) userIdentity).thread_id = fresh) ∧
    (graphRun (convertMessagesToLanggraphFormat req.messages)
          (buildRunConfig (selectThreadId req.thread_id fresh) userIdentity)
        = altRun (convertMessagesToLanggraphFormat req.messages)
            (buildRunConfig (selectThreadId req.thread_id fresh) userIdentity) →
      chatCompletionNonStreaming req (selectThreadId req.thread_id fresh) userIdentity graphRun
        = chatCompletionNonStreaming req (selectThreadId req.thread_id fresh) userIdentity altRun) := by
  refine ⟨?_, ?_, ?_, ?_⟩
  · intro t ht hne
    rw [ht]
    simp [selectThreadId, buildRunConfig, hne]
  · intro h
    rw [h]
    rfl
  · intro h
    rw [h]
    simp [selectThreadId, buildRunConfig]
  · intro h
    simp only [chatCompletionNonStreaming]
    rw [h]

/-- Witness for C6 (amended) at a concrete request with a non-empty
caller-supplied thread id. -/
theorem thread_id_selection_witness :
    (buildRunConfig (selectThreadId (some "thread-123") "thread-fresh")
        "dev-user").thread_id = "thread-123" :=
  (thread_id_selection
    { model := "agent", messages := [], thread_id := some "thread-123" }
    "dev-user" "thread-fresh"
    (fun _ _ => { messages := [] }) (fun _ _ => { messages := [] })).1
    "thread-123" rfl (by decide)

/-- C7: message conversion maps system/user/assistant messages 1:1 to the
corresponding internal kind with identical content, preserves relative
order, silently drops any other role, and never lengthens the list. -/
theorem convert_messages_roles (msgs : List ChatMessage) :
    (convertMessagesToLanggraphFormat msgs).length ≤ msgs.length ∧
    convertMessagesToLanggraphFormat [] = [] ∧
    (∀ content rest,
        convertMessagesToLanggraphFormat ({ role := "system", content := content } :: rest)
          = LGMessage.system content :: convertMessagesToLanggraphFormat rest) ∧
    (∀ content rest,
        convertMessagesToLanggraphFormat ({ role := "user", content := content } :: rest)
          = LGMessage.human content :: convertMessagesToLanggraphFormat rest) ∧
    (∀ content rest,
        convertMessagesToLanggraphFormat ({ role := "assistant", content := content } :: rest)
          = LGMessage.ai content :: convertMessagesToLanggraphFormat rest) ∧
    (∀ (m : ChatMessage) rest, m.role ≠ "system" → m.role ≠ "user" → m.role ≠ "assistant" →
        convertMessagesToLanggraphFormat (m :: rest)
          = convertMessagesToLanggraphFormat rest) := by
  refine ⟨?_, rfl,
    fun content rest => by simp [convertMessagesToLanggraphFormat],
    fun content rest => by simp [convertMessagesToLanggraphFormat],
    fun content rest => by simp [convertMessagesToLanggraphFormat],
    fun m rest h1 h2 h3 => by simp [convertMessagesToLanggraphFormat, h1, h2, h3]⟩
  induction msgs with
  | nil => simp [convertMessagesToLanggraphFormat]
  | cons m rest ih =>
    simp only [convertMessagesToLanggraphFormat, List.length_cons]
    split_ifs
    · simp only [List.length_cons]; omega
    · simp only [List.length_cons]; omega
    · simp only [List.length_cons]; omega
    · omega

/-- Witness for C7: an unrecognised role is dropped without error. -/
theorem convert_messages_roles_witness :
    convertMessagesToLanggraphFormat [{ role := "tool", content := "x" }]
      = convertMessagesToLanggraphFormat [] :=
  (convert_messages_roles []).2.2.2.2.2 { role := "tool", content := "x" } []
    (by decide) (by decide) (by decide)

/-- C8: the usage statistics of a successful non-streaming response are the
length proxy: prompt_tokens is the character length of the string rendering
of the request messages, completion_tokens is the character length of the
returned assistant content, and total_tokens is exactly their sum. -/
theorem usage_length_proxy (req : ChatCompletionRequest) (threadId userIdentity : String)
    (graphRun : List LGMessage → RunConfig → GraphResult) :
    ∃ c : ChatCompletionChoice,
      (chatCompletionNonStreaming req threadId userIdentity graphRun).choices = [c] ∧
      (chatCompletionNonStreaming req threadId userIdentity graphRun).usage.prompt_tokens
        = (renderMessages req.messages).length ∧
      (chatCompletionNonStreaming req threadId userIdentity graphRun).usage.completion_tokens
        = c.message.content.length ∧
      (chatCompletionNonStreaming req threadId userIdentity graphRun).usage.total_tokens
        = (chatCompletionNonStreaming req threadId userIdentity graphRun).usage.prompt_tokens
          + (chatCompletionNonStreaming req threadId userIdentity graphRun).usage.completion_tokens :=
  ⟨_, rfl, rfl, rfl, rfl⟩

/-- C9: an unknown model id yields a 404 whose structured detail names the
requested id, both for chat completions and for model details; the result
does not depend on the graph behaviors, so no graph is invoked. -/
theorem unknown_model_not_found (knownGraphs : List String) (req : ChatCompletionRequest)
    (userIdentity fresh : String)
    (graphRun : List LGMessage → RunConfig → GraphResult) (events : List StreamEvent)
    (modelId : String)
    (hreq : req.model ∉ knownGraphs) (hid : modelId ∉ knownGraphs) :
    createChatCompletion knownGraphs req userIdentity fresh graphRun events =
      Except.error { status_code := 404
                     detail := "Graph/Model \x27" ++ req.model ++ "\x27 not found" } ∧
    getModel knownGraphs modelId =
      Except.error { status_code := 404
                     detail := "Graph/Model \x27" ++ modelId ++ "\x27 not found" } := by
  constructor
  · simp [createChatCompletion, getGraphOr404, hreq]
  · simp [getModel, getGraphOr404, hid]

/-- Witness for C9: the request of Scenario D, for model id
"nonexistent-graph" against a registry knowing only "agent". -/
theorem unknown_model_not_found_witness :
    createChatCompletion ["agent"]
        { model := "nonexistent-graph", messages := [] }
        "dev-user" "t" (fun _ _ => { messages := [] }) [] =
      Except.error { status_code := 404
                     detail := "Graph/Model \x27" ++ "nonexistent-graph" ++ "\x27 not found" } ∧
    getModel ["agent"] "nonexistent-graph" =
      Except.error { status_code := 404
                     detail := "Graph/Model \x27" ++ "nonexistent-graph" ++ "\x27 not found" } :=
  unknown_model_not_found ["agent"] { model := "nonexistent-graph", messages := [] }
    "dev-user" "t" (fun _ _ => { messages := [] }) [] "nonexistent-graph"
    (by decide) (by decide)

/-- C10: when the graph run completes with an empty message list the
non-streaming handler still returns a normal single-choice response whose
assistant content is the placeholder "No response generated" with
finish_reason "stop". -/
theorem empty_messages_placeholder (req : ChatCompletionRequest)
    (threadId userIdentity : String)
    (graphRun : List LGMessage → RunConfig → GraphResult)
    (hempty : (graphRun (convertMessagesToLanggraphFormat req.messages)
        (buildRunConfig threadId userIdentity)).messages = []) :
    (chatCompletionNonStreaming req threadId userIdentity graphRun).choices =
      [{ index := 0,
         message := { role := "assistant", content := "No response generated" },
         finish_reason := "stop" }] ∧
    (chatCompletionNonStreaming req threadId userIdentity graphRun).object
      = "chat.completion" := by
  constructor
  · simp [chatCompletionNonStreaming, extractResponseContent, hempty]
  · rfl

/-- Witness for C10: a graph run returning an empty final message list. -/
theorem empty_messages_placeholder_witness :
    (chatCompletionNonStreaming { model := "agent", messages := [] } "t1" "dev-user"
        (fun _ _ => { messages := [] })).choices =
      [{ index := 0,
         message := { role := "assistant", content := "No response generated" },
         finish_reason := "stop" }] ∧
    (chatCompletionNonStreaming { model := "agent", messages := [] } "t1" "dev-user"
        (fun _ _ => { messages := [] })).object = "chat.completion" :=
  empty_messages_placeholder { model := "agent", messages := [] } "t1" "dev-user"
    (fun _ _ => { messages := [] }) rfl

end Aegra
